import Mathlib

/-!
Verification of the FLUX-Gen repository (four Python plugin modules:
flux.py, flux-gen.py, flux-pipeline.py, flux-action.py) against its
natural-language specification.

Shallow embedding conventions:
- Strings manipulated character by character (chat content, base64
  payloads, content types) are modelled as List Char; configuration
  strings and service statuses are modelled as String.
- The polling loops are modelled as fuel-indexed recursive functions over
  an abstract service, a function from the poll index to the status string
  returned by that poll. Wall-clock time is idealized: the n-th status
  query happens at instant n * poll_interval (queries themselves take no
  time), matching the sleep calls between iterations.
- Network and file side effects are modelled by their pure descriptions:
  a submission is the pair (endpoint, JSON payload), a saved file is the
  returned cache path, an emitted event is the status dictionary built by
  status_object.
- Fallible code returns Except or Option.
-/

/-- A JSON scalar value as it appears in the request payloads. -/
inductive JVal where
  | str (v : String)
  | nat (v : Nat)
  | bool (v : Bool)
deriving DecidableEq, Repr

/-- The dictionary built by status_object in flux.py, flux-gen.py and
flux-action.py: the data part of a type:status event. -/
structure StatusEvent where
  status : String
  description : String
  done : Bool
deriving DecidableEq, Repr

/-- Outcome of the while-True polling loop of flux.py / flux-gen.py:
either a TimeoutError carrying the elapsed time at the failing check, or a
break out of the loop with a terminal status after a number of queries.
fuelOut is the artifact of fuel-indexed recursion and is never reached for
a positive poll interval and sufficient fuel. -/
inductive PollResult where
  | timedOut (elapsed : Nat)
  | finished (finalStatus : String) (queries : Nat)
  | fuelOut
deriving DecidableEq, Repr

/-- A complete run of a polling loop: the emitted status events, the
sequence of statuses fetched from the service, and the outcome. -/
structure PollRun where
  events : List StatusEvent
  observed : List String
  result : PollResult
deriving DecidableEq, Repr

/-- The subsequence of statuses that differ from the previously seen one,
starting from a given last-seen value: the status transitions of a poll
trace. -/
def transitions (last : String) : List String → List String
  | [] => []
  | s :: rest => if s = last then transitions last rest else s :: transitions s rest

/-- The exact marker text used by every module when embedding a generated
image into chat content, and by flux-action.py when searching chat history:
the characters of "![BFL Image](". -/
def bflMarker : List Char := "![BFL Image](".data

/-- The Python substring test (needle in haystack) on character lists:
true when the needle is a prefix of some suffix of the haystack. -/
def isSubstrOf (needle : List Char) : List Char → Bool
  | [] => needle.isEmpty
  | c :: cs => needle.isPrefixOf (c :: cs) || isSubstrOf needle cs

/-- A chat message as inspected by flux-action.py: a role and a content
string (content modelled as List Char). -/
structure ChatMsg where
  role : String
  content : List Char
deriving DecidableEq, Repr

/-- True on the ok branch of an Except. -/
def exceptOk {ε α : Type} : Except ε α → Bool
  | .ok _ => true
  | .error _ => false

namespace Flux

/-- Configuration of flux.py (Pipe.Valves), with the source defaults.
Only the fields the verified logic reads are kept. The aspect-ratio field
is named aspectRatio; it is serialized under the source key. -/
structure Valves where
  BFL_API_KEY : String := ""
  api_endpoint : String := "flux-pro-1.1-ultra"
  image_width : Nat := 1024
  image_height : Nat := 1024
  poll_interval : Nat := 1
  timeout : Nat := 60
  raw : Bool := false
  aspectRatio : String := "16:9"
  safety_tolerance : Nat := 2
  output_format : String := "jpeg"
deriving DecidableEq, Repr

/-- flux.py Pipe.Valves.validate_raw (lines 109-115): raises
RawValidationError when raw is set and the endpoint is not
flux-pro-1.1-ultra, otherwise returns the valves unchanged. -/
def validate_raw (v : Valves) : Except String Valves :=
  if v.raw && !(v.api_endpoint == "flux-pro-1.1-ultra") then
    .error "Error: RAW option is only allowed when flux-pro-1.1-ultra model is selected."
  else .ok v

/-- flux.py Pipe.send_image_generation_request (lines 196-215): the JSON
payload, which always carries width, height, raw, aspect_ratio,
safety_tolerance and output_format, whatever the endpoint. -/
def buildPayload (v : Valves) (prompt : String) : List (String × JVal) :=
  [ ("prompt", .str prompt),
    ("width", .nat v.image_width),
    ("height", .nat v.image_height),
    ("raw", .bool v.raw),
    ("aspect_ratio", .str v.aspectRatio),
    ("safety_tolerance", .nat v.safety_tolerance),
    ("output_format", .str v.output_format) ]

/-- The submission flow of flux.py: valve validation (which pydantic runs
when the valves are constructed, before Pipe.pipe can issue any request)
followed by the request description (endpoint, payload). A validation
failure therefore yields an error before any network call is described. -/
def submit (v : Valves) (prompt : String) : Except String (String × List (String × JVal)) :=
  match validate_raw v with
  | .error e => .error e
  | .ok v2 => .ok (v2.api_endpoint, buildPayload v2 prompt)

/-- The five statuses on which the polling loop of flux.py breaks
(lines 323-330). -/
def terminalStatuses : List String :=
  ["Ready", "Error", "Content Moderated", "Request Moderated", "Task not found"]

/-- flux.py lines 295-307: the human-readable description chosen for a
fetched status. -/
def statusMessage (status : String) : String :=
  match status with
  | "Ready" => "Ready"
  | "Pending" => "Standing by..."
  | "Processing" => "Generating..."
  | "Error" => "Error"
  | "Content Moderated" => "Inadmissible content"
  | "Request Moderated" => "Incorrect request"
  | "Task not found" => "Task not found"
  | other => "Unknown status: " ++ other

/-- flux.py lines 309-320: the status event emitted on a status change.
The event is complete/done exactly for Ready and Error. -/
def statusEvent (s : String) : StatusEvent :=
  { status := if s ∈ (["Ready", "Error"] : List String) then "complete" else "in_progress",
    description := statusMessage s,
    done := s ∈ (["Ready", "Error"] : List String) }

/-- flux.py Pipe.pipe polling loop (lines 285-332), fuel-indexed.
n is the index of the next query; the elapsed time at the top of
iteration n is n * i (i the poll interval, t the timeout). An event is
emitted when the fetched status differs from the last seen one; the loop
breaks on the five terminal statuses, and raises TimeoutError when the
elapsed time strictly exceeds t. -/
def pollAux (t i : Nat) (srv : Nat → String) : Nat → Nat → String → PollRun
  | 0, _, _ => ⟨[], [], .fuelOut⟩
  | fuel + 1, n, last =>
    if n * i > t then ⟨[], [], .timedOut (n * i)⟩
    else
      let status := srv n
      let evs := if status = last then [] else [statusEvent status]
      if status ∈ terminalStatuses then ⟨evs, [status], .finished status (n + 1)⟩
      else
        let rest := pollAux t i srv fuel (n + 1) status
        ⟨evs ++ rest.events, status :: rest.observed, rest.result⟩

/-- The polling loop started as in flux.py: first query at index 0, last
seen status initialized to the empty string. The fuel t / i + 2 dominates
the number of iterations whenever 0 < i. -/
def pollLoop (t i : Nat) (srv : Nat → String) : PollRun :=
  pollAux t i srv (t / i + 2) 0 ""

/-- flux.py Pipe.save_url_image (lines 226-245): succeeds, producing the
cache path of the written file, only when the declared content type starts
with "image"; the extension is guessed from the content type with fallback
".png". guessExt stands for mimetypes.guess_extension. -/
def save_url_image (guessExt : List Char → Option (List Char))
    (imageId contentType : List Char) : Except (List Char) (List Char) :=
  if "image".data.isPrefixOf contentType then
    let ext := (guessExt contentType).getD ".png".data
    .ok ("/cache/image/generations/".data ++ imageId ++ ext)
  else .error "URL does not point to an image.".data

/-- flux.py lines 353-357: the chat content returned on a successful
generation. -/
def successContent (originalPrompt translatedPrompt localPath : List Char) : List Char :=
  "**Original promt:** ".data ++ originalPrompt ++
  "\n\n**Optimized promt:** ".data ++ translatedPrompt ++
  "\n\n![BFL Image](".data ++ localPath ++ ")".data

end Flux

namespace FluxGen

/-- The nine model/resolution choices of flux-gen.py (DIMENSION_OPTIONS,
lines 51-97): each selects an endpoint and either a fixed width/height
pair or an aspect-ratio string. -/
structure DimChoice where
  endpoint : String
  width : Option Nat := none
  height : Option Nat := none
  aspectRatio : Option String := none
deriving DecidableEq, Repr

/-- flux-gen.py DIMENSION_OPTIONS (lines 51-97). -/
def DIMENSION_OPTIONS : List (String × DimChoice) :=
  [ ("flux-dev: 1440x1440", { endpoint := "flux-dev", width := some 1440, height := some 1440 }),
    ("flux-dev: 1440x896", { endpoint := "flux-dev", width := some 1440, height := some 896 }),
    ("flux-dev: 896x1440", { endpoint := "flux-dev", width := some 896, height := some 1440 }),
    ("flux-pro-1.1: 1440x1440", { endpoint := "flux-pro-1.1", width := some 1440, height := some 1440 }),
    ("flux-pro-1.1: 1440x896", { endpoint := "flux-pro-1.1", width := some 1440, height := some 896 }),
    ("flux-pro-1.1: 896x1440", { endpoint := "flux-pro-1.1", width := some 896, height := some 1440 }),
    ("flux-pro-1.1-ultra: 1:1", { endpoint := "flux-pro-1.1-ultra", aspectRatio := some "1:1" }),
    ("flux-pro-1.1-ultra: 16:9", { endpoint := "flux-pro-1.1-ultra", aspectRatio := some "16:9" }),
    ("flux-pro-1.1-ultra: 9:16", { endpoint := "flux-pro-1.1-ultra", aspectRatio := some "9:16" }) ]

/-- Configuration of flux-gen.py (Pipe.Valves), with the source defaults.
Only the fields the verified logic reads are kept. -/
structure Valves where
  BFL_API_KEY : String := ""
  dimension : String := "flux-dev: 1440x1440"
  poll_interval : Nat := 1
  timeout : Nat := 60
  raw : Bool := false
  safety_tolerance : Nat := 2
  output_format : String := "jpeg"
deriving DecidableEq, Repr

/-- flux-gen.py Pipe.Valves.validate_raw (lines 173-180): raises
RawValidationError when raw is set and the selected dimension does not
start with flux-pro-1.1-ultra, otherwise returns the valves unchanged.
The Python str.startswith test is modelled by List.isPrefixOf on the
character lists. -/
def validate_raw (v : Valves) : Except String Valves :=
  if v.raw && !("flux-pro-1.1-ultra".data.isPrefixOf v.dimension.data) then
    .error "Error: RAW option is only allowed when flux-pro-1.1-ultra is selected."
  else .ok v

/-- flux-gen.py Pipe.send_image_generation_request (lines 268-303): looks
the dimension up in DIMENSION_OPTIONS (a missing key would be a Python
KeyError, modelled as none), builds the common payload (prompt,
safety_tolerance, output_format) and then adds raw and aspect_ratio for
the ultra endpoint, or width and height for the other two endpoints.
Returns (endpoint, payload). -/
def buildPayload (v : Valves) (prompt : String) : Option (String × List (String × JVal)) :=
  (DIMENSION_OPTIONS.lookup v.dimension).map fun c =>
    let base : List (String × JVal) :=
      [ ("prompt", .str prompt),
        ("safety_tolerance", .nat v.safety_tolerance),
        ("output_format", .str v.output_format) ]
    if c.endpoint = "flux-pro-1.1-ultra" then
      (c.endpoint, base ++ [("raw", .bool v.raw), ("aspect_ratio", .str (c.aspectRatio.getD ""))])
    else
      (c.endpoint, base ++ [("width", .nat (c.width.getD 0)), ("height", .nat (c.height.getD 0))])

/-- The submission flow of flux-gen.py: valve validation (run by pydantic
at valve construction, before any request can be issued) followed by the
request description. -/
def submit (v : Valves) (prompt : String) : Except String (String × List (String × JVal)) :=
  match validate_raw v with
  | .error e => .error e
  | .ok v2 =>
    match buildPayload v2 prompt with
    | none => .error "KeyError: dimension"
    | some r => .ok r

/-- The five statuses on which the polling loop of flux-gen.py breaks
(lines 410-417); textually identical to the list in flux.py. -/
def terminalStatuses : List String :=
  ["Ready", "Error", "Content Moderated", "Request Moderated", "Task not found"]

/-- flux-gen.py lines 384-395: the human-readable description chosen for
a fetched status; identical to flux.py. -/
def statusMessage (status : String) : String :=
  match status with
  | "Ready" => "Ready"
  | "Pending" => "Standing by..."
  | "Processing" => "Generating..."
  | "Error" => "Error"
  | "Content Moderated" => "Inadmissible content"
  | "Request Moderated" => "Incorrect request"
  | "Task not found" => "Task not found"
  | other => "Unknown status: " ++ other

/-- flux-gen.py lines 396-407: the status event emitted on a status
change; identical to flux.py. -/
def statusEvent (s : String) : StatusEvent :=
  { status := if s ∈ (["Ready", "Error"] : List String) then "complete" else "in_progress",
    description := statusMessage s,
    done := s ∈ (["Ready", "Error"] : List String) }

/-- flux-gen.py Pipe.pipe polling loop (lines 374-419), textually
identical to the loop of flux.py; same fuel-indexed model. -/
def pollAux (t i : Nat) (srv : Nat → String) : Nat → Nat → String → PollRun
  | 0, _, _ => ⟨[], [], .fuelOut⟩
  | fuel + 1, n, last =>
    if n * i > t then ⟨[], [], .timedOut (n * i)⟩
    else
      let status := srv n
      let evs := if status = last then [] else [statusEvent status]
      if status ∈ terminalStatuses then ⟨evs, [status], .finished status (n + 1)⟩
      else
        let rest := pollAux t i srv fuel (n + 1) status
        ⟨evs ++ rest.events, status :: rest.observed, rest.result⟩

/-- The polling loop started as in flux-gen.py. -/
def pollLoop (t i : Nat) (srv : Nat → String) : PollRun :=
  pollAux t i srv (t / i + 2) 0 ""

/-- flux-gen.py Pipe.save_url_image (lines 314-334), textually identical
to flux.py: succeeds only when the declared content type starts with
"image", with extension fallback ".png". -/
def save_url_image (guessExt : List Char → Option (List Char))
    (imageId contentType : List Char) : Except (List Char) (List Char) :=
  if "image".data.isPrefixOf contentType then
    let ext := (guessExt contentType).getD ".png".data
    .ok ("/cache/image/generations/".data ++ imageId ++ ext)
  else .error "URL does not point to an image.".data

/-- flux-gen.py lines 436-440: the chat content returned on a successful
generation (this variant spells the word prompt). -/
def successContent (originalPrompt translatedPrompt localPath : List Char) : List Char :=
  "**Original prompt:** ".data ++ originalPrompt ++
  "\n\n**Optimized prompt:** ".data ++ translatedPrompt ++
  "\n\n![BFL Image](".data ++ localPath ++ ")".data

end FluxGen

namespace FluxPipeline

/-- Outcome of the polling loop of flux-pipeline.py (lines 118-138):
Ready with a downloaded result, a failure status, or falling out of the
while condition with the timeout message. Each carries the number of
status queries issued. -/
inductive PipeResult where
  | ready (queries : Nat)
  | failed (status : String) (queries : Nat)
  | timedOut (queries : Nat)
  | fuelOut
deriving DecidableEq, Repr

/-- The three non-Ready statuses that stop the polling loop of
flux-pipeline.py (line 133). Task not found is absent. -/
def failStatuses : List String := ["Error", "Content Moderated", "Request Moderated"]

/-- flux-pipeline.py Pipeline.pipe polling loop (lines 118-138),
fuel-indexed; the elapsed time at the top of iteration n is idealized as
n * i. The loop runs while the elapsed time is strictly below the
timeout; inside it, Ready returns the saved image, the three failure
statuses return an error, and every other status (Task not found
included) sleeps and polls again. -/
def pollAux (t i : Nat) (srv : Nat → String) : Nat → Nat → PipeResult
  | 0, _ => .fuelOut
  | fuel + 1, n =>
    if n * i < t then
      let status := srv n
      if status = "Ready" then .ready (n + 1)
      else if status ∈ failStatuses then .failed status (n + 1)
      else pollAux t i srv fuel (n + 1)
    else .timedOut n

/-- The polling loop started as in flux-pipeline.py. -/
def pollLoop (t i : Nat) (srv : Nat → String) : PipeResult :=
  pollAux t i srv (t / i + 2) 0

/-- flux-pipeline.py Pipeline._save_image (lines 44-57): never inspects
whether the content type is an image; guesses the extension with fallback
".jpeg" and always writes the file, returning its cache path. -/
def _save_image (guessExt : List Char → Option (List Char))
    (imageId contentType : List Char) : Except (List Char) (List Char) :=
  let ext := (guessExt contentType).getD ".jpeg".data
  .ok ("/cache/image/generations/".data ++ imageId ++ ext)

/-- flux-pipeline.py Pipeline._process_base64_image (lines 59-63): if the
string contains a comma, return the part after the first comma (Python
split with maxsplit 1), otherwise return it unchanged. -/
def _process_base64_image (s : List Char) : List Char :=
  if ',' ∈ s then (s.dropWhile (fun c => c != ',')).drop 1 else s

/-- flux-pipeline.py line 132: the chat content returned on success. -/
def successContent (localPath : List Char) : List Char :=
  "![BFL Image](".data ++ localPath ++ ")".data

end FluxPipeline

namespace FluxAction

/-- Outcome of the bounded polling loop of flux-action.py (lines
243-315): Ready with an image URL, an error return on a failure status,
or exhausting the attempts with image_url still unset (the loop then
reports that FLUX returned no result in the allotted time). -/
inductive ActionResult where
  | ready (queries : Nat)
  | failed (status : String) (queries : Nat)
  | noResult
deriving DecidableEq, Repr

/-- A run of the flux-action.py polling loop: emitted events, observed
statuses, outcome. -/
structure ActionRun where
  events : List StatusEvent
  observed : List String
  result : ActionResult
deriving DecidableEq, Repr

/-- The four failure statuses that make flux-action.py return an error
(lines 295-300). -/
def failStatuses : List String :=
  ["Error", "Content Moderated", "Request Moderated", "Task not found"]

/-- flux-action.py lines 281-286: the in-progress event emitted on every
poll whose status is not Pending or Processing. -/
def actionEvent (s : String) : StatusEvent :=
  { status := "in_progress", description := "Flux status: " ++ s, done := false }

/-- flux-action.py polling loop (for attempt in range(max_attempts),
lines 247-315). Each iteration sleeps, queries a status, emits an
in-progress event whenever the status is not Pending or Processing
(with no memory of the previous status), breaks on Ready, and returns an
error event plus an error result on the four failure statuses. When the
attempts are exhausted without an image URL, an error event reporting no
result in the allotted time is emitted. The result.sample field is
assumed present on Ready. -/
def pollAux (srv : Nat → String) : Nat → Nat → ActionRun
  | 0, _ =>
    ⟨[⟨"error", "Flux не вернул результат в отведённое время.", true⟩], [], .noResult⟩
  | fuel + 1, n =>
    let status := srv n
    let evs :=
      if status ∈ (["Pending", "Processing"] : List String) then [] else [actionEvent status]
    if status = "Ready" then ⟨evs, [status], .ready (n + 1)⟩
    else if status ∈ failStatuses then
      ⟨evs ++ [⟨"error", "Flux вернул статус: " ++ status, true⟩], [status], .failed status (n + 1)⟩
    else
      let rest := pollAux srv fuel (n + 1)
      ⟨evs ++ rest.events, status :: rest.observed, rest.result⟩

/-- The polling loop of flux-action.py with its configured maximum number
of attempts. -/
def pollLoop (maxAttempts : Nat) (srv : Nat → String) : ActionRun :=
  pollAux srv maxAttempts 0

/-- flux-action.py Action.save_url_image (lines 109-131): never inspects
whether the content type is an image; guesses the extension with fallback
".jpg" and always writes the file, returning its cache path. -/
def save_url_image (guessExt : List Char → Option (List Char))
    (imageId contentType : List Char) : Except (List Char) (List Char) :=
  let ext := (guessExt contentType).getD ".jpg".data
  .ok ("/cache/image/generations/".data ++ imageId ++ ext)

/-- The regular expression of flux-action.py line 91 tried at one
position: the literal marker, then a nonempty capture of characters other
than a closing parenthesis, then a closing parenthesis. Returns the
capture group. -/
def regexMatchAt (s : List Char) : Option (List Char) :=
  if bflMarker.isPrefixOf s then
    let rest := s.drop bflMarker.length
    let cap := rest.takeWhile (fun c => c != ')')
    if cap ≠ [] ∧ cap.length < rest.length then some cap else none
  else none

/-- re.search over the content: the first position, scanning left to
right, where the pattern matches. -/
def regexSearch : List Char → Option (List Char)
  | [] => none
  | c :: cs =>
    match regexMatchAt (c :: cs) with
    | some cap => some cap
    | none => regexSearch cs

/-- flux-action.py Action.find_generated_image_path (lines 83-94),
iterating over reversed(messages): the scan over the already reversed
list. A message is considered when its role is assistant and its content
contains the marker; the regex is then searched, and on a regex miss the
scan continues with earlier messages. -/
def findAux : List ChatMsg → Option (List Char)
  | [] => none
  | m :: rest =>
    if (m.role == "assistant") && isSubstrOf bflMarker m.content then
      match regexSearch m.content with
      | some cap => some cap
      | none => findAux rest
    else findAux rest

/-- flux-action.py Action.find_generated_image_path (lines 83-94). -/
def find_generated_image_path (messages : List ChatMsg) : Option (List Char) :=
  findAux messages.reverse

/-- flux-action.py Action.action lines 372-379: the handler looks up the
previously generated image and returns an error result when none is
found. -/
def action_lookup (messages : List ChatMsg) : Except String (List Char) :=
  match find_generated_image_path messages with
  | some p => .ok p
  | none => .error "В сообщениях не найдено последнее сгенерированное изображение!"

/-- flux-action.py line 338: the chat content emitted on a successful
inpainting run. -/
def successContent (localPath : List Char) : List Char :=
  "Результат inpainting:\n\n![BFL Image](".data ++ localPath ++ ")".data

end FluxAction

/-! ### Helper lemmas -/

theorem takeWhile_append_stop (p : Char → Bool) (l₁ : List Char) (x : Char) (l₂ : List Char)
    (h : ∀ c ∈ l₁, p c = true) (hx : p x = false) :
    (l₁ ++ x :: l₂).takeWhile p = l₁ := by
  induction l₁ with
  | nil => simp [List.takeWhile, hx]
  | cons a as ih =>
    have ha : p a = true := h a (by simp)
    simp only [List.cons_append, List.takeWhile, ha]
    exact congrArg (a :: ·) (ih fun c hc => h c (by simp [hc]))

theorem dropWhile_append_stop (p : Char → Bool) (l₁ : List Char) (x : Char) (l₂ : List Char)
    (h : ∀ c ∈ l₁, p c = true) (hx : p x = false) :
    (l₁ ++ x :: l₂).dropWhile p = x :: l₂ := by
  induction l₁ with
  | nil => simp [List.dropWhile, hx]
  | cons a as ih =>
    have ha : p a = true := h a (by simp)
    simp only [List.cons_append, List.dropWhile, ha]
    exact ih fun c hc => h c (by simp [hc])

theorem isPrefixOf_append_self (l x : List Char) : l.isPrefixOf (l ++ x) = true := by
  induction l with
  | nil => simp [List.isPrefixOf]
  | cons a as ih => simp [List.isPrefixOf, ih]

theorem isSubstrOf_append (pre n post : List Char) :
    isSubstrOf n (pre ++ n ++ post) = true := by
  induction pre with
  | nil =>
    cases n with
    | nil =>
      cases post with
      | nil => simp [isSubstrOf]
      | cons c cs => simp [isSubstrOf, List.isPrefixOf]
    | cons a as =>
      simp only [List.nil_append, List.cons_append, isSubstrOf]
      have := isPrefixOf_append_self (a :: as) post
      simp only [List.cons_append] at this
      simp [this]
  | cons c cs ih =>
    have ih2 : isSubstrOf n (cs ++ (n ++ post)) = true := by
      simpa [List.append_assoc] using ih
    simp [isSubstrOf, ih2]

theorem regexMatchAt_marker (path post : List Char)
    (hne : path ≠ []) (hpar : ∀ c ∈ path, c ≠ ')') :
    FluxAction.regexMatchAt (bflMarker ++ path ++ ')' :: post) = some path := by
  have hpre : bflMarker.isPrefixOf (bflMarker ++ (path ++ ')' :: post)) = true :=
    isPrefixOf_append_self bflMarker (path ++ ')' :: post)
  have hdrop : (bflMarker ++ (path ++ ')' :: post)).drop bflMarker.length = path ++ ')' :: post := by
    simp
  have htake : (path ++ ')' :: post).takeWhile (fun c => c != ')') = path :=
    takeWhile_append_stop _ path ')' post
      (fun c hc => by simpa using hpar c hc) (by simp)
  simp only [FluxAction.regexMatchAt, List.append_assoc, hpre, if_true, hdrop, htake]
  have hlen : path.length < (path ++ ')' :: post).length := by simp
  simp [hne, hlen]

theorem regexSearch_of_matchAt (s : List Char) (r : List Char)
    (h : FluxAction.regexMatchAt s = some r) : FluxAction.regexSearch s = some r := by
  cases s with
  | nil =>
    exfalso
    have : FluxAction.regexMatchAt ([] : List Char) = none := by
      simp [FluxAction.regexMatchAt, bflMarker, List.isPrefixOf]
    rw [this] at h
    exact Option.noConfusion h
  | cons c cs =>
    simp only [FluxAction.regexSearch, h]

theorem regexSearch_cons_ne (c : Char) (cs : List Char) (hc : c ≠ '!') :
    FluxAction.regexSearch (c :: cs) = FluxAction.regexSearch cs := by
  have hm : FluxAction.regexMatchAt (c :: cs) = none := by
    have hpre : bflMarker.isPrefixOf (c :: cs) = false := by
      have hb : bflMarker = '!' :: "[BFL Image](".data := by decide
      rw [hb]
      simp [List.isPrefixOf, Ne.symm hc]
    simp [FluxAction.regexMatchAt, hpre]
  simp only [FluxAction.regexSearch, hm]

theorem regexSearch_append_ne (pre s : List Char) (h : ∀ c ∈ pre, c ≠ '!') :
    FluxAction.regexSearch (pre ++ s) = FluxAction.regexSearch s := by
  induction pre with
  | nil => rfl
  | cons c cs ih =>
    rw [List.cons_append, regexSearch_cons_ne c (cs ++ s) (h c (by simp))]
    exact ih fun c hc => h c (by simp [hc])

theorem findAux_none (l : List ChatMsg)
    (h : ∀ m ∈ l, m.role = "assistant" → isSubstrOf bflMarker m.content = false) :
    FluxAction.findAux l = none := by
  induction l with
  | nil => rfl
  | cons m rest ih =>
    have ihr : FluxAction.findAux rest = none :=
      ih fun x hx => h x (by simp [hx])
    by_cases hrole : m.role = "assistant"
    · have hsub : isSubstrOf bflMarker m.content = false := h m (by simp) hrole
      simp [FluxAction.findAux, hrole, hsub, ihr]
    · have : (m.role == "assistant") = false := by
        simpa using hrole
      simp [FluxAction.findAux, this, ihr]

theorem flux_pollAux_events (t i : Nat) (srv : Nat → String) :
    ∀ (fuel n : Nat) (last : String),
      (Flux.pollAux t i srv fuel n last).events =
        (transitions last (Flux.pollAux t i srv fuel n last).observed).map Flux.statusEvent := by
  intro fuel
  induction fuel with
  | zero => intro n last; rfl
  | succ fuel ih =>
    intro n last
    simp only [Flux.pollAux]
    by_cases hgt : n * i > t
    · simp [hgt, transitions]
    · simp only [if_neg hgt]
      by_cases hterm : srv n ∈ Flux.terminalStatuses
      · simp only [if_pos hterm]
        by_cases hlast : srv n = last
        · simp [transitions, hlast]
        · simp [transitions, hlast]
      · simp only [if_neg hterm]
        by_cases hlast : srv n = last
        · rw [hlast]
          simpa [transitions] using ih (n + 1) last
        · simpa [transitions, hlast] using ih (n + 1) (srv n)

theorem flux_pollAux_finished_terminal (t i : Nat) (srv : Nat → String) :
    ∀ (fuel n : Nat) (last s : String) (q : Nat),
      (Flux.pollAux t i srv fuel n last).result = .finished s q →
      s ∈ Flux.terminalStatuses := by
  intro fuel
  induction fuel with
  | zero => intro n last s q h; exact absurd h (by simp [Flux.pollAux])
  | succ fuel ih =>
    intro n last s q h
    by_cases hgt : n * i > t
    · simp [Flux.pollAux, hgt] at h
    · by_cases hterm : srv n ∈ Flux.terminalStatuses
      · simp only [Flux.pollAux, if_neg hgt, if_pos hterm] at h
        obtain ⟨hs, -⟩ := PollResult.finished.inj h
        exact hs ▸ hterm
      · simp only [Flux.pollAux, if_neg hgt, if_neg hterm] at h
        exact ih (n + 1) (srv n) s q h

theorem flux_pollAux_first_terminal (t i : Nat) (srv : Nat → String) (n : Nat)
    (hfirst : ∀ k < n, srv k ∉ Flux.terminalStatuses)
    (hterm : srv n ∈ Flux.terminalStatuses) (htime : n * i ≤ t) :
    ∀ (fuel m : Nat) (last : String), m ≤ n → n < fuel + m →
      (Flux.pollAux t i srv fuel m last).result = .finished (srv n) (n + 1) := by
  intro fuel
  induction fuel with
  | zero => intro m last hmn hfuel; omega
  | succ fuel ih =>
    intro m last hmn hfuel
    have hmt : ¬ m * i > t := by
      have : m * i ≤ n * i := Nat.mul_le_mul_right i hmn
      omega
    by_cases hm : m = n
    · subst hm
      simp [Flux.pollAux, hmt, hterm]
    · have hlt : m < n := lt_of_le_of_ne hmn hm
      have hnt : srv m ∉ Flux.terminalStatuses := hfirst m hlt
      simp only [Flux.pollAux, if_neg hmt, if_neg hnt]
      exact ih (m + 1) (srv m) hlt (by omega)

theorem flux_pollAux_timeout (t i : Nat) (srv : Nat → String)
    (hterm : ∀ k, srv k ∉ Flux.terminalStatuses) (hi : 0 < i) :
    ∀ (fuel m : Nat) (last : String), m ≤ t / i + 1 → t / i + 1 < fuel + m →
      (Flux.pollAux t i srv fuel m last).result = .timedOut ((t / i + 1) * i) := by
  intro fuel
  induction fuel with
  | zero => intro m last hm hfuel; omega
  | succ fuel ih =>
    intro m last hm hfuel
    by_cases hgt : m * i > t
    · have hdiv : t / i < m := (Nat.div_lt_iff_lt_mul hi).mpr hgt
      have hme : m = t / i + 1 := by omega
      subst hme
      simp [Flux.pollAux, hgt]
    · have hle : m * i ≤ t := by omega
      have hdiv : m ≤ t / i := (Nat.le_div_iff_mul_le hi).mpr hle
      simp only [Flux.pollAux, if_neg hgt, if_neg (hterm m)]
      exact ih (m + 1) (srv m) (by omega) (by omega)

theorem fluxGen_pollAux_events (t i : Nat) (srv : Nat → String) :
    ∀ (fuel n : Nat) (last : String),
      (FluxGen.pollAux t i srv fuel n last).events =
        (transitions last (FluxGen.pollAux t i srv fuel n last).observed).map FluxGen.statusEvent := by
  intro fuel
  induction fuel with
  | zero => intro n last; rfl
  | succ fuel ih =>
    intro n last
    simp only [FluxGen.pollAux]
    by_cases hgt : n * i > t
    · simp [hgt, transitions]
    · simp only [if_neg hgt]
      by_cases hterm : srv n ∈ FluxGen.terminalStatuses
      · simp only [if_pos hterm]
        by_cases hlast : srv n = last
        · simp [transitions, hlast]
        · simp [transitions, hlast]
      · simp only [if_neg hterm]
        by_cases hlast : srv n = last
        · rw [hlast]
          simpa [transitions] using ih (n + 1) last
        · simpa [transitions, hlast] using ih (n + 1) (srv n)

theorem fluxGen_pollAux_finished_terminal (t i : Nat) (srv : Nat → String) :
    ∀ (fuel n : Nat) (last s : String) (q : Nat),
      (FluxGen.pollAux t i srv fuel n last).result = .finished s q →
      s ∈ FluxGen.terminalStatuses := by
  intro fuel
  induction fuel with
  | zero => intro n last s q h; exact absurd h (by simp [FluxGen.pollAux])
  | succ fuel ih =>
    intro n last s q h
    by_cases hgt : n * i > t
    · simp [FluxGen.pollAux, hgt] at h
    · by_cases hterm : srv n ∈ FluxGen.terminalStatuses
      · simp only [FluxGen.pollAux, if_neg hgt, if_pos hterm] at h
        obtain ⟨hs, -⟩ := PollResult.finished.inj h
        exact hs ▸ hterm
      · simp only [FluxGen.pollAux, if_neg hgt, if_neg hterm] at h
        exact ih (n + 1) (srv n) s q h

theorem fluxGen_pollAux_first_terminal (t i : Nat) (srv : Nat → String) (n : Nat)
    (hfirst : ∀ k < n, srv k ∉ FluxGen.terminalStatuses)
    (hterm : srv n ∈ FluxGen.terminalStatuses) (htime : n * i ≤ t) :
    ∀ (fuel m : Nat) (last : String), m ≤ n → n < fuel + m →
      (FluxGen.pollAux t i srv fuel m last).result = .finished (srv n) (n + 1) := by
  intro fuel
  induction fuel with
  | zero => intro m last hmn hfuel; omega
  | succ fuel ih =>
    intro m last hmn hfuel
    have hmt : ¬ m * i > t := by
      have : m * i ≤ n * i := Nat.mul_le_mul_right i hmn
      omega
    by_cases hm : m = n
    · subst hm
      simp [FluxGen.pollAux, hmt, hterm]
    · have hlt : m < n := lt_of_le_of_ne hmn hm
      have hnt : srv m ∉ FluxGen.terminalStatuses := hfirst m hlt
      simp only [FluxGen.pollAux, if_neg hmt, if_neg hnt]
      exact ih (m + 1) (srv m) hlt (by omega)

theorem fluxGen_pollAux_timeout (t i : Nat) (srv : Nat → String)
    (hterm : ∀ k, srv k ∉ FluxGen.terminalStatuses) (hi : 0 < i) :
    ∀ (fuel m : Nat) (last : String), m ≤ t / i + 1 → t / i + 1 < fuel + m →
      (FluxGen.pollAux t i srv fuel m last).result = .timedOut ((t / i + 1) * i) := by
  intro fuel
  induction fuel with
  | zero => intro m last hm hfuel; omega
  | succ fuel ih =>
    intro m last hm hfuel
    by_cases hgt : m * i > t
    · have hdiv : t / i < m := (Nat.div_lt_iff_lt_mul hi).mpr hgt
      have hme : m = t / i + 1 := by omega
      subst hme
      simp [FluxGen.pollAux, hgt]
    · have hle : m * i ≤ t := by omega
      have hdiv : m ≤ t / i := (Nat.le_div_iff_mul_le hi).mpr hle
      simp only [FluxGen.pollAux, if_neg hgt, if_neg (hterm m)]
      exact ih (m + 1) (srv m) (by omega) (by omega)

theorem pipeline_pollAux_stops (t i : Nat) (srv : Nat → String) (n : Nat)
    (hfirst : ∀ k < n, srv k ≠ "Ready" ∧ srv k ∉ FluxPipeline.failStatuses)
    (htime : n * i < t) :
    ∀ (fuel m : Nat), m ≤ n → n < fuel + m →
      FluxPipeline.pollAux t i srv fuel m =
        (if srv n = "Ready" then .ready (n + 1) else
          if srv n ∈ FluxPipeline.failStatuses then .failed (srv n) (n + 1)
          else FluxPipeline.pollAux t i srv (fuel - (n + 1 - m)) (n + 1)) := by
  intro fuel
  induction fuel with
  | zero => intro m hmn hfuel; omega
  | succ fuel ih =>
    intro m hmn hfuel
    have hmt : m * i < t := by
      have : m * i ≤ n * i := Nat.mul_le_mul_right i hmn
      omega
    by_cases hm : m = n
    · subst hm
      by_cases hr : srv m = "Ready"
      · simp [FluxPipeline.pollAux, hmt, hr]
      · by_cases hf : srv m ∈ FluxPipeline.failStatuses
        · simp [FluxPipeline.pollAux, hmt, hr, hf]
        · simp [FluxPipeline.pollAux, hmt, hr, hf]
    · have hlt : m < n := lt_of_le_of_ne hmn hm
      obtain ⟨hr, hf⟩ := hfirst m hlt
      simp only [FluxPipeline.pollAux, if_pos hmt, if_neg hr, if_neg hf]
      have := ih (m + 1) hlt (by omega)
      rw [this]
      have harith : fuel - (n + 1 - (m + 1)) = fuel + 1 - (n + 1 - m) := by omega
      rw [harith]

theorem pipeline_pollAux_timeout (t i : Nat) (srv : Nat → String) (q : Nat)
    (hterm : ∀ k, srv k ≠ "Ready" ∧ srv k ∉ FluxPipeline.failStatuses)
    (hq : ∀ k < q, k * i < t) (ht : t ≤ q * i) :
    ∀ (fuel m : Nat), m ≤ q → q < fuel + m →
      FluxPipeline.pollAux t i srv fuel m = .timedOut q := by
  intro fuel
  induction fuel with
  | zero => intro m hmq hfuel; omega
  | succ fuel ih =>
    intro m hmq hfuel
    by_cases hm : m = q
    · subst hm
      have : ¬ m * i < t := by omega
      simp [FluxPipeline.pollAux, this]
    · have hlt : m < q := lt_of_le_of_ne hmq hm
      obtain ⟨hr, hf⟩ := hterm m
      simp only [FluxPipeline.pollAux, if_pos (hq m hlt), if_neg hr, if_neg hf]
      exact ih (m + 1) hlt (by omega)

theorem action_pollAux_noResult (srv : Nat → String)
    (hterm : ∀ k, srv k ≠ "Ready" ∧ srv k ∉ FluxAction.failStatuses) :
    ∀ (fuel n : Nat), (FluxAction.pollAux srv fuel n).result = .noResult := by
  intro fuel
  induction fuel with
  | zero => intro n; rfl
  | succ fuel ih =>
    intro n
    obtain ⟨hr, hf⟩ := hterm n
    simp only [FluxAction.pollAux, if_neg hr, if_neg hf]
    exact ih (n + 1)

theorem action_pollAux_emit_count (srv : Nat → String) :
    ∀ (fuel n : Nat),
      ((FluxAction.pollAux srv fuel n).events.filter
          (fun e => e.status == "in_progress")).length =
        ((FluxAction.pollAux srv fuel n).observed.filter
          (fun s => !(s == "Pending" || s == "Processing"))).length := by
  intro fuel
  induction fuel with
  | zero => intro n; rfl
  | succ fuel ih =>
    intro n
    by_cases h1 : srv n = "Pending"
    · have hr : ¬ srv n = "Ready" := by simp [h1]
      have hf : srv n ∉ FluxAction.failStatuses := by simp [h1, FluxAction.failStatuses]
      have hpp : srv n ∈ (["Pending", "Processing"] : List String) := by simp [h1]
      simp only [FluxAction.pollAux, if_neg hr, if_neg hf, if_pos hpp]
      simp [h1, ih (n + 1)]
    · by_cases h2 : srv n = "Processing"
      · have hr : ¬ srv n = "Ready" := by simp [h2]
        have hf : srv n ∉ FluxAction.failStatuses := by simp [h2, FluxAction.failStatuses]
        have hpp : srv n ∈ (["Pending", "Processing"] : List String) := by simp [h2]
        simp only [FluxAction.pollAux, if_neg hr, if_neg hf, if_pos hpp]
        simp [h2, ih (n + 1)]
      · have hpp : srv n ∉ (["Pending", "Processing"] : List String) := by simp [h1, h2]
        have hb1 : (srv n == "Pending") = false := by simp [h1]
        have hb2 : (srv n == "Processing") = false := by simp [h2]
        by_cases hr : srv n = "Ready"
        · simp [FluxAction.pollAux, hr, FluxAction.actionEvent]
        · by_cases hf : srv n ∈ FluxAction.failStatuses
          · simp only [FluxAction.pollAux, if_neg hr, if_pos hf, if_neg hpp]
            simp [FluxAction.actionEvent, hb1, hb2]
          · simp only [FluxAction.pollAux, if_neg hr, if_neg hf, if_neg hpp]
            simp [FluxAction.actionEvent, hb1, hb2, ih (n + 1)]

/-! ### Claim theorems -/

/-- C2 (confirmed): in flux.py and flux-gen.py, a configuration with the
raw flag set and a non-ultra endpoint variant fails validation with the
RawValidationError message before any request is built, and every other
parameter combination passes validation. -/
theorem C2_raw_validation (v : Flux.Valves) (vg : FluxGen.Valves) (p : String) :
    (exceptOk (Flux.submit v p) = true ↔
      ¬(v.raw = true ∧ v.api_endpoint ≠ "flux-pro-1.1-ultra")) ∧
    (v.raw = true → v.api_endpoint ≠ "flux-pro-1.1-ultra" →
      Flux.submit v p =
        .error "Error: RAW option is only allowed when flux-pro-1.1-ultra model is selected.") ∧
    (exceptOk (FluxGen.validate_raw vg) = true ↔
      ¬(vg.raw = true ∧ "flux-pro-1.1-ultra".data.isPrefixOf vg.dimension.data = false)) ∧
    (vg.raw = true → "flux-pro-1.1-ultra".data.isPrefixOf vg.dimension.data = false →
      FluxGen.validate_raw vg =
        .error "Error: RAW option is only allowed when flux-pro-1.1-ultra is selected.") := by
  refine ⟨?_, ?_, ?_, ?_⟩
  · cases hraw : v.raw with
    | false => simp [Flux.submit, Flux.validate_raw, hraw, exceptOk]
    | true =>
      by_cases hep : v.api_endpoint = "flux-pro-1.1-ultra"
      · simp [Flux.submit, Flux.validate_raw, hraw, hep, exceptOk]
      · simp [Flux.submit, Flux.validate_raw, hraw, hep, exceptOk]
  · intro hraw hep
    simp [Flux.submit, Flux.validate_raw, hraw, hep]
  · cases hraw : vg.raw with
    | false => simp [FluxGen.validate_raw, hraw, exceptOk]
    | true =>
      cases hsw : "flux-pro-1.1-ultra".data.isPrefixOf vg.dimension.data with
      | false => simp [FluxGen.validate_raw, hraw, hsw, exceptOk]
      | true => simp [FluxGen.validate_raw, hraw, hsw, exceptOk]
  · intro hraw hsw
    simp [FluxGen.validate_raw, hraw, hsw]

/-- Witness for C2 at concrete inputs: raw together with flux-dev is
rejected with the exact error message, in both modules. -/
theorem C2_raw_validation_witness :
    Flux.submit { raw := true, api_endpoint := "flux-dev" } "p" =
      .error "Error: RAW option is only allowed when flux-pro-1.1-ultra model is selected." ∧
    FluxGen.validate_raw { raw := true, dimension := "flux-dev: 1440x1440" } =
      .error "Error: RAW option is only allowed when flux-pro-1.1-ultra is selected." :=
  ⟨(C2_raw_validation { raw := true, api_endpoint := "flux-dev" }
      { raw := true, dimension := "flux-dev: 1440x1440" } "p").2.1 rfl (by decide),
   (C2_raw_validation { raw := true, api_endpoint := "flux-dev" }
      { raw := true, dimension := "flux-dev: 1440x1440" } "p").2.2.2 rfl (by decide)⟩
/-- C4 counterexample: a download whose declared content type is
text/html, which does not indicate an image, still makes flux-action.py
save_url_image write a file (with the .jpg fallback extension) and return
its path instead of failing. -/
theorem C4_counterexample :
    FluxAction.save_url_image (fun _ => none) "abc".data "text/html".data =
      .ok "/cache/image/generations/abc.jpg".data ∧
    "image".data.isPrefixOf "text/html".data = false := by
  exact ⟨rfl, by decide⟩

/-- C4 (corrected): the save_url_image of flux.py and of flux-gen.py fail
exactly when the declared content type does not start with image, and
write a file (returning its path) exactly when it does; the
save_url_image of flux-action.py and the _save_image of flux-pipeline.py
write a file whatever the declared content type, falling back to the
extensions .jpg and .jpeg respectively. -/
theorem C4_content_type_gate (g : List Char → Option (List Char)) (imageId ct : List Char) :
    (exceptOk (Flux.save_url_image g imageId ct) = true ↔
      "image".data.isPrefixOf ct = true) ∧
    (exceptOk (FluxGen.save_url_image g imageId ct) = true ↔
      "image".data.isPrefixOf ct = true) ∧
    exceptOk (FluxAction.save_url_image g imageId ct) = true ∧
    exceptOk (FluxPipeline._save_image g imageId ct) = true := by
  refine ⟨?_, ?_, rfl, rfl⟩
  · cases hp : "image".data.isPrefixOf ct with
    | false => simp [Flux.save_url_image, hp, exceptOk]
    | true => simp [Flux.save_url_image, hp, exceptOk]
  · cases hp : "image".data.isPrefixOf ct with
    | false => simp [FluxGen.save_url_image, hp, exceptOk]
    | true => simp [FluxGen.save_url_image, hp, exceptOk]

/-- C5 counterexample: the payload flux.py sends for the fixed-dimension
endpoint flux-dev still contains the aspect_ratio and raw parameters of
the ultra variant. -/
theorem C5_counterexample :
    "aspect_ratio" ∈ (Flux.buildPayload { api_endpoint := "flux-dev" } "p").map Prod.fst ∧
    "raw" ∈ (Flux.buildPayload { api_endpoint := "flux-dev" } "p").map Prod.fst ∧
    ({ api_endpoint := "flux-dev" } : Flux.Valves).api_endpoint ≠ "flux-pro-1.1-ultra" := by
  refine ⟨?_, ?_, ?_⟩ <;> decide

/-- C5 (corrected): in flux-gen.py the payload carries exactly the
parameter subset of the selected endpoint variant: prompt,
safety_tolerance and output_format plus raw and aspect_ratio for the
ultra variant, or plus width and height for the two fixed-dimension
variants, never the other kind of dimension parameter; flux.py, by
contrast, always sends all parameters (width, height, raw, aspect_ratio)
whatever the endpoint. -/
theorem C5_endpoint_payloads (v : FluxGen.Valves) (vp : Flux.Valves) (p : String)
    (ep : String) (pl : List (String × JVal))
    (h : FluxGen.buildPayload v p = some (ep, pl)) :
    (ep = "flux-pro-1.1-ultra" →
      pl.map Prod.fst = ["prompt", "safety_tolerance", "output_format", "raw", "aspect_ratio"]) ∧
    (ep ≠ "flux-pro-1.1-ultra" →
      pl.map Prod.fst = ["prompt", "safety_tolerance", "output_format", "width", "height"]) ∧
    (Flux.buildPayload vp p).map Prod.fst =
      ["prompt", "width", "height", "raw", "aspect_ratio", "safety_tolerance", "output_format"] := by
  refine ⟨?_, ?_, rfl⟩ <;>
  · intro hep
    simp only [FluxGen.buildPayload] at h
    cases hl : FluxGen.DIMENSION_OPTIONS.lookup v.dimension with
    | none => rw [hl] at h; exact absurd h (by simp)
    | some c =>
      rw [hl] at h
      simp only [Option.map_some', Option.some.injEq] at h
      by_cases hce : c.endpoint = "flux-pro-1.1-ultra"
      · rw [if_pos hce] at h
        simp only [Prod.mk.injEq] at h
        obtain ⟨he, hpl⟩ := h
        first
          | (subst hpl; simp; done)
          | (exact absurd (he.symm.trans hce) hep)
          | (exact absurd (he.trans hep) hce)
      · rw [if_neg hce] at h
        simp only [Prod.mk.injEq] at h
        obtain ⟨he, hpl⟩ := h
        first
          | (subst hpl; simp; done)
          | (exact absurd (he.symm.trans hce) hep)
          | (exact absurd (he.trans hep) hce)

/-- Witness for C5 at a concrete input: the ultra dimension choice yields
exactly the ultra parameter subset. -/
theorem C5_endpoint_payloads_witness :
    FluxGen.buildPayload { dimension := "flux-pro-1.1-ultra: 16:9" } "p" =
      some ("flux-pro-1.1-ultra",
        [("prompt", JVal.str "p"), ("safety_tolerance", JVal.nat 2),
         ("output_format", JVal.str "jpeg"), ("raw", JVal.bool false),
         ("aspect_ratio", JVal.str "16:9")]) ∧
    ([("prompt", JVal.str "p"), ("safety_tolerance", JVal.nat 2),
      ("output_format", JVal.str "jpeg"), ("raw", JVal.bool false),
      ("aspect_ratio", JVal.str "16:9")] : List (String × JVal)).map Prod.fst =
        ["prompt", "safety_tolerance", "output_format", "raw", "aspect_ratio"] :=
  ⟨rfl,
   (C5_endpoint_payloads { dimension := "flux-pro-1.1-ultra: 16:9" } {} "p"
      "flux-pro-1.1-ultra" _ rfl).1 rfl⟩

/-- C7 (confirmed): the prefix-stripping step of flux-pipeline.py forwards
exactly the base64 part after the comma of a data:...;base64, prefix
(the media type carrying no comma, as the base64 alphabet and media types
in data URLs do not), and forwards a payload without such a prefix (hence
without any comma, the base64 alphabet having none) unchanged. -/
theorem C7_base64_prefix_strip (media body s : List Char)
    (hm : ',' ∉ media) (hs : ',' ∉ s) :
    FluxPipeline._process_base64_image
        ("data:".data ++ media ++ ";base64,".data ++ body) = body ∧
    FluxPipeline._process_base64_image s = s := by
  constructor
  · have hshape : "data:".data ++ media ++ ";base64,".data ++ body
        = ("data:".data ++ media ++ ";base64".data) ++ ',' :: body := by
      have h1 : (";base64,".data : List Char) = ";base64".data ++ [','] := by decide
      rw [h1]
      simp [List.append_assoc]
    rw [hshape]
    have hmem : ',' ∈ ("data:".data ++ media ++ ";base64".data) ++ ',' :: body := by
      simp
    have hpre : ∀ c ∈ "data:".data ++ media ++ ";base64".data, (c != ',') = true := by
      have hd : ∀ c ∈ ("data:".data : List Char), c ≠ ',' := by decide
      have hb : ∀ c ∈ (";base64".data : List Char), c ≠ ',' := by decide
      intro c hc
      simp only [List.mem_append] at hc
      rcases hc with (hc | hc) | hc
      · simpa using hd c hc
      · have : c ≠ ',' := fun he => hm (he ▸ hc)
        simpa using this
      · simpa using hb c hc
    rw [FluxPipeline._process_base64_image, if_pos hmem,
      dropWhile_append_stop _ _ ',' body hpre (by simp)]
    rfl
  · rw [FluxPipeline._process_base64_image, if_neg hs]

/-- Witness for C7 at concrete inputs. -/
theorem C7_base64_prefix_strip_witness :
    FluxPipeline._process_base64_image
        ("data:".data ++ "image/png".data ++ ";base64,".data ++ "AAAB".data) = "AAAB".data ∧
    FluxPipeline._process_base64_image "AAAB".data = "AAAB".data :=
  C7_base64_prefix_strip "image/png".data "AAAB".data "AAAB".data (by decide) (by decide)

/-- C8 (confirmed): when the chat history holds an assistant message whose
content carries the marker ![BFL Image](path) (path nonempty and free of
closing parentheses), find_generated_image_path of flux-action.py returns
exactly that path; when no assistant message contains the marker, it
returns none and the action handler returns the error result instead of a
path. -/
theorem C8_image_lookup (rest : List ChatMsg) (path post : List Char) (msgs : List ChatMsg)
    (hp : path ≠ []) (hc : ∀ c ∈ path, c ≠ ')')
    (hnone : ∀ m ∈ msgs, m.role = "assistant" → isSubstrOf bflMarker m.content = false) :
    FluxAction.find_generated_image_path
        (rest ++ [⟨"assistant", bflMarker ++ path ++ ')' :: post⟩]) = some path ∧
    FluxAction.find_generated_image_path msgs = none ∧
    FluxAction.action_lookup msgs =
      .error "В сообщениях не найдено последнее сгенерированное изображение!" := by
  have h2 : FluxAction.find_generated_image_path msgs = none := by
    unfold FluxAction.find_generated_image_path
    exact findAux_none _ fun m hm => hnone m (List.mem_reverse.mp hm)
  refine ⟨?_, h2, ?_⟩
  · unfold FluxAction.find_generated_image_path
    rw [List.reverse_append]
    have hsub : isSubstrOf bflMarker (bflMarker ++ path ++ ')' :: post) = true := by
      simpa [List.append_assoc] using isSubstrOf_append [] bflMarker (path ++ ')' :: post)
    have hsearch : FluxAction.regexSearch (bflMarker ++ path ++ ')' :: post) = some path :=
      regexSearch_of_matchAt _ path (regexMatchAt_marker path post hp hc)
    have hsub2 : isSubstrOf bflMarker (bflMarker ++ (path ++ ')' :: post)) = true := by
      simpa [List.append_assoc] using hsub
    have hsearch2 : FluxAction.regexSearch (bflMarker ++ (path ++ ')' :: post)) = some path := by
      simpa [List.append_assoc] using hsearch
    simp [FluxAction.findAux, hsub2, hsearch2]
  · simp [FluxAction.action_lookup, h2]

/-- Witness for C8 at concrete inputs: a two-message history with the
marker in the assistant message yields the embedded path; a history with
no marked assistant message yields none and the error result. -/
theorem C8_image_lookup_witness :
    FluxAction.find_generated_image_path
        [⟨"assistant", bflMarker ++ "/cache/image/generations/a.png".data ++ ')' :: []⟩] =
      some "/cache/image/generations/a.png".data ∧
    FluxAction.find_generated_image_path
        [⟨"user", "hi".data⟩, ⟨"assistant", "no marker here".data⟩] = none ∧
    FluxAction.action_lookup [⟨"user", "hi".data⟩, ⟨"assistant", "no marker here".data⟩] =
      .error "В сообщениях не найдено последнее сгенерированное изображение!" :=
  C8_image_lookup [] "/cache/image/generations/a.png".data []
    [⟨"user", "hi".data⟩, ⟨"assistant", "no marker here".data⟩]
    (by decide) (by decide) (by decide)

theorem findAux_single (content p : List Char)
    (hsub : isSubstrOf bflMarker content = true)
    (hsearch : FluxAction.regexSearch content = some p) :
    FluxAction.find_generated_image_path [⟨"assistant", content⟩] = some p := by
  unfold FluxAction.find_generated_image_path
  simp [FluxAction.findAux, hsub, hsearch]

/-- C9 (confirmed): on success every variant returns chat content that
embeds the local cache path inside the one shared marker text
![BFL Image](path), bit for bit the same across flux.py, flux-gen.py,
flux-pipeline.py and flux-action.py, and that marker is accepted as
lookup key by find_generated_image_path of flux-action.py (shown here on
the pipeline and action contents, whose fixed texts contain no extra
exclamation mark; the path is nonempty and free of closing
parentheses). -/
theorem C9_marker_embedding (o t p : List Char) (hp : p ≠ []) (hc : ∀ c ∈ p, c ≠ ')') :
    Flux.successContent o t p =
      ("**Original promt:** ".data ++ o ++ "\n\n**Optimized promt:** ".data ++ t
        ++ "\n\n".data) ++ bflMarker ++ p ++ [')'] ∧
    FluxGen.successContent o t p =
      ("**Original prompt:** ".data ++ o ++ "\n\n**Optimized prompt:** ".data ++ t
        ++ "\n\n".data) ++ bflMarker ++ p ++ [')'] ∧
    FluxPipeline.successContent p = bflMarker ++ p ++ [')'] ∧
    FluxAction.successContent p = "Результат inpainting:\n\n".data ++ bflMarker ++ p ++ [')'] ∧
    FluxAction.find_generated_image_path [⟨"assistant", FluxPipeline.successContent p⟩] =
      some p ∧
    FluxAction.find_generated_image_path [⟨"assistant", FluxAction.successContent p⟩] =
      some p := by
  have hm2 : ("\n\n![BFL Image](".data : List Char) = "\n\n".data ++ bflMarker := by decide
  have hm3 : ("Результат inpainting:\n\n![BFL Image](".data : List Char) =
      "Результат inpainting:\n\n".data ++ bflMarker := by decide
  have hpar : (")".data : List Char) = [')'] := by decide
  have e3 : FluxPipeline.successContent p = bflMarker ++ p ++ [')'] := by
    simp [FluxPipeline.successContent, bflMarker, hpar]
  have e4 : FluxAction.successContent p =
      "Результат inpainting:\n\n".data ++ bflMarker ++ p ++ [')'] := by
    simp [FluxAction.successContent, hm3, hpar, bflMarker, List.append_assoc]
  have hsearch : FluxAction.regexSearch (bflMarker ++ (p ++ [')'])) = some p := by
    have := regexSearch_of_matchAt _ p (regexMatchAt_marker p [] hp hc)
    simpa [List.append_assoc] using this
  have hsub : isSubstrOf bflMarker (bflMarker ++ (p ++ [')'])) = true := by
    simpa [List.append_assoc] using isSubstrOf_append [] bflMarker (p ++ [')'])
  refine ⟨?_, ?_, e3, e4, ?_, ?_⟩
  · simp [Flux.successContent, hm2, hpar, bflMarker, List.append_assoc]
  · simp [FluxGen.successContent, hm2, hpar, bflMarker, List.append_assoc]
  · refine findAux_single _ p ?_ ?_
    · rw [e3, List.append_assoc]
      exact hsub
    · rw [e3, List.append_assoc]
      exact hsearch
  · have hhead : ∀ c ∈ ("Результат inpainting:\n\n".data : List Char), c ≠ '!' := by decide
    refine findAux_single _ p ?_ ?_
    · rw [e4]
      simp only [List.append_assoc]
      simpa [List.append_assoc] using
        isSubstrOf_append "Результат inpainting:\n\n".data bflMarker (p ++ [')'])
    · rw [e4]
      simp only [List.append_assoc]
      rw [regexSearch_append_ne _ _ hhead]
      exact hsearch

/-- Witness for C9 at concrete inputs. -/
theorem C9_marker_embedding_witness :
    FluxPipeline.successContent "/cache/image/generations/a.png".data =
      bflMarker ++ "/cache/image/generations/a.png".data ++ [')'] ∧
    FluxAction.find_generated_image_path
        [⟨"assistant", FluxPipeline.successContent "/cache/image/generations/a.png".data⟩] =
      some "/cache/image/generations/a.png".data :=
  ⟨(C9_marker_embedding [] [] "/cache/image/generations/a.png".data
      (by decide) (by decide)).2.2.1,
   (C9_marker_embedding [] [] "/cache/image/generations/a.png".data
      (by decide) (by decide)).2.2.2.2.1⟩

/-- C1 counterexample: with the service constantly reporting the terminal
status Task not found, the flux-pipeline.py polling loop (timeout 2,
interval 1) does not stop at the first query: it issues a second query
(timedOut 2 records two issued queries) and ends by timeout, although
Task not found is one of the five terminal statuses. -/
theorem C1_counterexample :
    FluxPipeline.pollLoop 2 1 (fun _ => "Task not found") = .timedOut 2 ∧
    "Task not found" ∈ Flux.terminalStatuses := by
  exact ⟨rfl, by decide⟩

/-- C1 (corrected): in flux.py and flux-gen.py the polling loop stops
querying exactly at the first fetched status among the five terminal
values (Ready, Error, Content Moderated, Request Moderated,
Task not found), polling through every earlier status; a finished loop
always ends on a terminal status. In flux-pipeline.py only Ready, Error,
Content Moderated and Request Moderated stop the loop, while
Task not found, like unknown strings, keeps polling until timeout. -/
theorem C1_terminal_stop (t i : Nat) (srv : Nat → String) (n : Nat) (hi : 0 < i) :
    ((∀ k < n, srv k ∉ Flux.terminalStatuses) → srv n ∈ Flux.terminalStatuses →
      n * i ≤ t →
      (Flux.pollLoop t i srv).result = .finished (srv n) (n + 1) ∧
      (FluxGen.pollLoop t i srv).result = .finished (srv n) (n + 1)) ∧
    (∀ s q, (Flux.pollLoop t i srv).result = .finished s q → s ∈ Flux.terminalStatuses) ∧
    (∀ s q, (FluxGen.pollLoop t i srv).result = .finished s q → s ∈ FluxGen.terminalStatuses) ∧
    ((∀ k < n, ¬(srv k = "Ready" ∨ srv k ∈ FluxPipeline.failStatuses)) →
      (srv n = "Ready" ∨ srv n ∈ FluxPipeline.failStatuses) → n * i < t →
      FluxPipeline.pollLoop t i srv =
        (if srv n = "Ready" then .ready (n + 1) else .failed (srv n) (n + 1))) ∧
    FluxPipeline.pollLoop 2 1 (fun _ => "Task not found") = .timedOut 2 := by
  refine ⟨?_, ?_, ?_, ?_, rfl⟩
  · intro hfirst hterm htime
    have hdiv : n ≤ t / i := (Nat.le_div_iff_mul_le hi).mpr htime
    constructor
    · exact flux_pollAux_first_terminal t i srv n hfirst hterm htime
        (t / i + 2) 0 "" (Nat.zero_le n) (by omega)
    · have hterm2 : srv n ∈ FluxGen.terminalStatuses := hterm
      have hfirst2 : ∀ k < n, srv k ∉ FluxGen.terminalStatuses := hfirst
      exact fluxGen_pollAux_first_terminal t i srv n hfirst2 hterm2 htime
        (t / i + 2) 0 "" (Nat.zero_le n) (by omega)
  · exact fun s q h => flux_pollAux_finished_terminal t i srv (t / i + 2) 0 "" s q h
  · exact fun s q h => fluxGen_pollAux_finished_terminal t i srv (t / i + 2) 0 "" s q h
  · intro hfirst hn htime
    have hfirst2 : ∀ k < n, srv k ≠ "Ready" ∧ srv k ∉ FluxPipeline.failStatuses := by
      intro k hk
      have := hfirst k hk
      exact ⟨fun h => this (Or.inl h), fun h => this (Or.inr h)⟩
    have hdiv : n ≤ t / i := (Nat.le_div_iff_mul_le hi).mpr (le_of_lt htime)
    have hstop := pipeline_pollAux_stops t i srv n hfirst2 htime
      (t / i + 2) 0 (Nat.zero_le n) (by omega)
    rcases hn with hr | hf
    · rw [FluxPipeline.pollLoop, hstop, if_pos hr, if_pos hr]
    · by_cases hr : srv n = "Ready"
      · rw [FluxPipeline.pollLoop, hstop, if_pos hr, if_pos hr]
      · rw [FluxPipeline.pollLoop, hstop, if_neg hr, if_pos hf, if_neg hr]

/-- Witness for C1 at concrete inputs: a service that immediately reports
Content Moderated stops the flux.py loop after one query. -/
theorem C1_terminal_stop_witness :
    (Flux.pollLoop 60 1 (fun _ => "Content Moderated")).result =
      .finished "Content Moderated" 1 ∧
    FluxPipeline.pollLoop 2 1 (fun _ => "Task not found") = .timedOut 2 :=
  ⟨((C1_terminal_stop 60 1 (fun _ => "Content Moderated") 0 (by decide)).1
      (fun k hk => absurd hk k.not_lt_zero) (by decide) (by decide)).1,
   (C1_terminal_stop 60 1 (fun _ => "Content Moderated") 0 (by decide)).2.2.2.2⟩

/-- C3 (confirmed): when the service never returns a terminal status, the
flux.py and flux-gen.py loops end with exactly one TimeoutError at the
first polling instant whose idealized elapsed time n * poll_interval
strictly exceeds the timeout; the flux-pipeline.py loop falls out of its
while condition after the last instant below the timeout; the
flux-action.py loop exhausts its configured attempts and reports no
result; with timeout 2 and interval 1 the flux.py loop fails once, at
elapsed time 3, the first multiple of the interval beyond the 2 second
bound. -/
theorem C3_timeout (t i maxA : Nat) (srv : Nat → String)
    (hterm : ∀ k, srv k ∉ Flux.terminalStatuses) (hi : 0 < i) :
    (Flux.pollLoop t i srv).result = .timedOut ((t / i + 1) * i) ∧
    (FluxGen.pollLoop t i srv).result = .timedOut ((t / i + 1) * i) ∧
    (∀ q, t ≤ q * i → (∀ k < q, k * i < t) →
      FluxPipeline.pollLoop t i srv = .timedOut q) ∧
    (FluxAction.pollLoop maxA srv).result = .noResult ∧
    (Flux.pollLoop 2 1 (fun _ => "Pending")).result = .timedOut 3 := by
  have hsplit : ∀ k, srv k ≠ "Ready" ∧ srv k ≠ "Error" ∧ srv k ≠ "Content Moderated" ∧
      srv k ≠ "Request Moderated" ∧ srv k ≠ "Task not found" := by
    intro k
    have := hterm k
    simpa [Flux.terminalStatuses] using this
  refine ⟨?_, ?_, ?_, ?_, rfl⟩
  · exact flux_pollAux_timeout t i srv hterm hi (t / i + 2) 0 ""
      (Nat.zero_le _) (Nat.lt_succ_of_le (Nat.le_refl _))
  · exact fluxGen_pollAux_timeout t i srv hterm hi (t / i + 2) 0 ""
      (Nat.zero_le _) (Nat.lt_succ_of_le (Nat.le_refl _))
  · intro q hq1 hq2
    have hqb : q ≤ t / i + 1 := by
      by_cases hq0 : q = 0
      · subst hq0
        exact Nat.zero_le _
      · have h1 : (q - 1) * i ≤ t := le_of_lt (hq2 (q - 1) (by omega))
        have h2 : q - 1 ≤ t / i := (Nat.le_div_iff_mul_le hi).mpr h1
        omega
    have hterm2 : ∀ k, srv k ≠ "Ready" ∧ srv k ∉ FluxPipeline.failStatuses := by
      intro k
      obtain ⟨h1, h2, h3, h4, h5⟩ := hsplit k
      exact ⟨h1, by simp [FluxPipeline.failStatuses, h2, h3, h4]⟩
    exact pipeline_pollAux_timeout t i srv q hterm2 hq2 hq1 (t / i + 2) 0
      (Nat.zero_le q) (Nat.lt_succ_of_le hqb)
  · have hterm2 : ∀ k, srv k ≠ "Ready" ∧ srv k ∉ FluxAction.failStatuses := by
      intro k
      obtain ⟨h1, h2, h3, h4, h5⟩ := hsplit k
      exact ⟨h1, by simp [FluxAction.failStatuses, h2, h3, h4, h5]⟩
    exact action_pollAux_noResult srv hterm2 maxA 0

/-- Witness for C3 at concrete inputs: a service stuck on Pending times
out in all loops (flux.py at elapsed time 3 for timeout 2 and interval 1,
flux-pipeline.py after 2 queries, flux-action.py after its 30
attempts). -/
theorem C3_timeout_witness :
    (Flux.pollLoop 2 1 (fun _ => "Pending")).result = .timedOut 3 ∧
    FluxPipeline.pollLoop 2 1 (fun _ => "Pending") = .timedOut 2 ∧
    (FluxAction.pollLoop 30 (fun _ => "Pending")).result = .noResult := by
  have h : ∀ k : Nat, (fun _ : Nat => "Pending") k ∉ Flux.terminalStatuses := by
    intro k
    show ("Pending" : String) ∉ Flux.terminalStatuses
    decide
  have hq : ∀ k < 2, k * 1 < 2 := by omega
  exact ⟨(C3_timeout 2 1 30 (fun _ => "Pending") h (by decide)).1,
    (C3_timeout 2 1 30 (fun _ => "Pending") h (by decide)).2.2.1 2 (by decide) hq,
    (C3_timeout 2 1 30 (fun _ => "Pending") h (by decide)).2.2.2.1⟩

/-- C6 counterexample: in flux-action.py, two consecutive polls that both
return the same unknown status Odd each emit a status update (the run
below emits the identical in-progress event twice before the no-result
error), so repeated polls with an unchanged status do not stay silent. -/
theorem C6_counterexample :
    (FluxAction.pollLoop 2 (fun _ => "Odd")).events =
      [FluxAction.actionEvent "Odd", FluxAction.actionEvent "Odd",
       ⟨"error", "Flux не вернул результат в отведённое время.", true⟩] ∧
    (FluxAction.pollLoop 2 (fun _ => "Odd")).observed = ["Odd", "Odd"] := by
  exact ⟨rfl, rfl⟩

/-- C6 (corrected): in flux.py and flux-gen.py the emitted status updates
are exactly the image, under the status-event constructor, of the status
transitions of the observed trace (one event per change of status,
nothing on a repeated status); in flux-action.py an in-progress update is
emitted on every poll whose status lies outside Pending and Processing,
repeats included, and never for Pending or Processing. -/
theorem C6_transition_events (t i maxA : Nat) (srv : Nat → String) :
    (Flux.pollLoop t i srv).events =
      (transitions "" (Flux.pollLoop t i srv).observed).map Flux.statusEvent ∧
    (FluxGen.pollLoop t i srv).events =
      (transitions "" (FluxGen.pollLoop t i srv).observed).map FluxGen.statusEvent ∧
    ((FluxAction.pollLoop maxA srv).events.filter
        (fun e => e.status == "in_progress")).length =
      ((FluxAction.pollLoop maxA srv).observed.filter
        (fun s => !(s == "Pending" || s == "Processing"))).length :=
  ⟨flux_pollAux_events t i srv (t / i + 2) 0 "",
   fluxGen_pollAux_events t i srv (t / i + 2) 0 "",
   action_pollAux_emit_count srv maxA 0⟩

/-- C10 (confirmed): in the polling loops of flux.py and flux-gen.py an
emitted event has done true and status complete exactly when the service
status is Ready or Error; each failure terminal status (Content
Moderated, Request Moderated, Task not found) is emitted as an event with
done false and status in_progress, even though the loop then stops at
that very query. -/
theorem C10_event_done_flags (t i : Nat) (s : String)
    (hs : s ∈ (["Content Moderated", "Request Moderated", "Task not found"] : List String)) :
    (∀ u, ((Flux.statusEvent u).done = true ∧ (Flux.statusEvent u).status = "complete") ↔
        (u = "Ready" ∨ u = "Error")) ∧
    (∀ u, ((FluxGen.statusEvent u).done = true ∧ (FluxGen.statusEvent u).status = "complete") ↔
        (u = "Ready" ∨ u = "Error")) ∧
    (Flux.statusEvent s).done = false ∧
    (Flux.statusEvent s).status = "in_progress" ∧
    Flux.pollLoop t i (fun _ => s) = ⟨[Flux.statusEvent s], [s], .finished s 1⟩ ∧
    FluxGen.pollLoop t i (fun _ => s) = ⟨[FluxGen.statusEvent s], [s], .finished s 1⟩ := by
  have hflux : ∀ u, ((Flux.statusEvent u).done = true ∧
      (Flux.statusEvent u).status = "complete") ↔ (u = "Ready" ∨ u = "Error") := by
    intro u
    by_cases hu : u ∈ (["Ready", "Error"] : List String)
    · constructor
      · intro _
        simpa using hu
      · intro _
        simp [Flux.statusEvent, hu]
    · constructor
      · intro h
        have hd := h.1
        simp [Flux.statusEvent, hu] at hd
      · intro h
        exact absurd (by simpa using h) hu
  have hfluxGen : ∀ u, ((FluxGen.statusEvent u).done = true ∧
      (FluxGen.statusEvent u).status = "complete") ↔ (u = "Ready" ∨ u = "Error") := by
    intro u
    by_cases hu : u ∈ (["Ready", "Error"] : List String)
    · constructor
      · intro _
        simpa using hu
      · intro _
        simp [FluxGen.statusEvent, hu]
    · constructor
      · intro h
        have hd := h.1
        simp [FluxGen.statusEvent, hu] at hd
      · intro h
        exact absurd (by simpa using h) hu
  refine ⟨hflux, hfluxGen, ?_, ?_, ?_, ?_⟩
  · fin_cases hs <;> decide
  · fin_cases hs <;> decide
  · rw [Flux.pollLoop, show t / i + 2 = (t / i + 1) + 1 from rfl]
    fin_cases hs <;> simp [Flux.pollAux, Flux.terminalStatuses]
  · rw [FluxGen.pollLoop, show t / i + 2 = (t / i + 1) + 1 from rfl]
    fin_cases hs <;> simp [FluxGen.pollAux, FluxGen.terminalStatuses]

/-- Witness for C10 at a concrete input: the Content Moderated status is
emitted as in-progress and not done while the loop stops after one
query. -/
theorem C10_event_done_flags_witness :
    (Flux.statusEvent "Content Moderated").done = false ∧
    (Flux.statusEvent "Content Moderated").status = "in_progress" ∧
    Flux.pollLoop 60 1 (fun _ => "Content Moderated") =
      ⟨[Flux.statusEvent "Content Moderated"], ["Content Moderated"],
        .finished "Content Moderated" 1⟩ :=
  ⟨(C10_event_done_flags 60 1 "Content Moderated" (by decide)).2.2.1,
   (C10_event_done_flags 60 1 "Content Moderated" (by decide)).2.2.2.1,
   (C10_event_done_flags 60 1 "Content Moderated" (by decide)).2.2.2.2.1⟩
